import Mathlib

/-!
Verification development for the oracledb exporter (src/main.go).

The Go program is shallowly embedded:
  * `cleanName` mirrors the sanitizer at the end of main.go; Go's
    per-character operations on the string are modelled on the string's
    character list, with the case mapping on the Basic Latin range
    (all strings the program sanitizes into metric names are ASCII).
  * each `ScrapeX` sub-collector is a function from the outcome of its
    one query (query error, or a list of rows each of which scans
    successfully or fails) to the list of emitted metric samples plus
    an error flag, exactly following the Go loop structure;
  * `scrape`, `Collect` and `Describe` mirror the orchestration on an
    explicit `Exporter` state; wall-clock time is an input (`elapsed`),
    float64 sample values are modelled as rationals, and the
    descriptor-discovery channel handoff of `Describe` is modelled as
    the sequential relay loop `relayDescs`.
-/

namespace OracleDB

/-- Mirrors `strings.Replace(s, " ", "_", -1)` acting on one character. -/
def replSpace (c : Char) : Char := if c = ' ' then '_' else c

/-- True when the character survives the three removing replacements
`strings.Replace(s, "(", "", -1)`, `... ")" ...`, `... "/" ...`. -/
def keepChar (c : Char) : Bool := !(c == '(' || c == ')' || c == '/')

/-- Embeds `cleanName` of main.go: replace each space by an underscore,
remove parentheses and forward slashes, then lowercase. -/
def cleanName (s : String) : String :=
  String.mk (((s.data.map replSpace).filter keepChar).map Char.toLower)

theorem replSpace_ne_space (c : Char) : replSpace c ≠ ' ' := by
  unfold replSpace
  split
  · decide
  · assumption

theorem toLower_toNat_of_upper (c : Char) (h1 : 65 ≤ c.toNat) (h2 : c.toNat ≤ 90) :
    (Char.toLower c).toNat = c.toNat + 32 := by
  unfold Char.toLower
  rw [if_pos ⟨h1, h2⟩]
  generalize c.toNat = n at h1 h2 ⊢
  interval_cases n <;> decide

theorem toLower_eq_self (c : Char) (h : ¬(65 ≤ c.toNat ∧ c.toNat ≤ 90)) :
    Char.toLower c = c := by
  unfold Char.toLower
  rw [if_neg h]

theorem cleanChar_fix (c : Char) (hk : keepChar c = true) (hs : c ≠ ' ') :
    replSpace (Char.toLower c) = Char.toLower c ∧
    keepChar (Char.toLower c) = true ∧
    Char.toLower (Char.toLower c) = Char.toLower c := by
  by_cases h : 65 ≤ c.toNat ∧ c.toNat ≤ 90
  · have ht : (Char.toLower c).toNat = c.toNat + 32 :=
      toLower_toNat_of_upper c h.1 h.2
    have hd1 : 97 ≤ (Char.toLower c).toNat := by omega
    have hd2 : (Char.toLower c).toNat ≤ 122 := by omega
    refine ⟨?_, ?_, ?_⟩
    · unfold replSpace
      rw [if_neg]
      intro he
      rw [he] at hd1
      exact absurd hd1 (by decide)
    · unfold keepChar
      have h1 : (Char.toLower c == '(') = false := by
        rw [beq_eq_false_iff_ne]
        intro he
        rw [he] at hd1
        exact absurd hd1 (by decide)
      have h2 : (Char.toLower c == ')') = false := by
        rw [beq_eq_false_iff_ne]
        intro he
        rw [he] at hd1
        exact absurd hd1 (by decide)
      have h3 : (Char.toLower c == '/') = false := by
        rw [beq_eq_false_iff_ne]
        intro he
        rw [he] at hd1
        exact absurd hd1 (by decide)
      rw [h1, h2, h3]
      rfl
    · apply toLower_eq_self
      omega
  · have he : Char.toLower c = c := toLower_eq_self c h
    refine ⟨?_, ?_, ?_⟩
    · rw [he]
      unfold replSpace
      rw [if_neg hs]
    · rw [he]
      exact hk
    · rw [he, he]

theorem mem_cleanName_fix (s : String) :
    ∀ c ∈ (cleanName s).data,
      replSpace c = c ∧ keepChar c = true ∧ Char.toLower c = c := by
  intro c hc
  have hc' : c ∈ ((s.data.map replSpace).filter keepChar).map Char.toLower := hc
  obtain ⟨b, hb, rfl⟩ := List.mem_map.1 hc'
  have hk : keepChar b = true := (List.mem_filter.1 hb).2
  have hbm : b ∈ s.data.map replSpace := (List.mem_filter.1 hb).1
  obtain ⟨a, _, rfl⟩ := List.mem_map.1 hbm
  exact cleanChar_fix _ hk (replSpace_ne_space a)

theorem map_eq_self_of_fix {α : Type} (f : α → α) :
    ∀ l : List α, (∀ a ∈ l, f a = a) → l.map f = l := by
  intro l
  induction l with
  | nil => intro _; rfl
  | cons a t ih =>
    intro h
    simp only [List.map_cons]
    rw [h a (List.mem_cons_self a t), ih (fun b hb => h b (List.mem_cons_of_mem a hb))]

theorem filter_eq_self_of_true {α : Type} (p : α → Bool) :
    ∀ l : List α, (∀ a ∈ l, p a = true) → l.filter p = l := by
  intro l
  induction l with
  | nil => intro _; rfl
  | cons a t ih =>
    intro h
    rw [List.filter_cons, if_pos (h a (List.mem_cons_self a t)),
      ih (fun b hb => h b (List.mem_cons_of_mem a hb))]

theorem cleanName_idem (s : String) : cleanName (cleanName s) = cleanName s := by
  have h := mem_cleanName_fix s
  show String.mk ((((cleanName s).data.map replSpace).filter keepChar).map Char.toLower)
      = cleanName s
  rw [map_eq_self_of_fix replSpace (cleanName s).data (fun c hc => (h c hc).1)]
  rw [filter_eq_self_of_true keepChar (cleanName s).data (fun c hc => (h c hc).2.1)]
  rw [map_eq_self_of_fix Char.toLower (cleanName s).data (fun c hc => (h c hc).2.2)]

/-- C6: the sanitizer `cleanName` is idempotent, and on the input
"User Commits (Total)" it returns "user_commits_total". -/
theorem cleanName_idempotent_and_example :
    (∀ s : String, cleanName (cleanName s) = cleanName s) ∧
    cleanName "User Commits (Total)" = "user_commits_total" := by
  refine ⟨cleanName_idem, ?_⟩
  decide

/-- Value kind of a prometheus metric sample. -/
inductive ValueType
  | gaugeValue
  | counterValue
deriving DecidableEq

/-- A prometheus descriptor: fully-qualified family name, help text and
the declared variable label keys, as built by `prometheus.NewDesc`. -/
structure Desc where
  fqName : String
  help : String
  variableLabels : List String
deriving DecidableEq

/-- A const metric sample as built by `prometheus.MustNewConstMetric`:
its descriptor, value kind, float64 value (modelled as a rational) and
the label values in the order they were passed. -/
structure Metric where
  desc : Desc
  valueType : ValueType
  value : Rat
  labelValues : List String
deriving DecidableEq

/-- The constant `namespace` of main.go. -/
def dbNamespace : String := "oracledb"

/-- The constant `exporter` of main.go. -/
def exporterSubsystem : String := "exporter"

/-- Embeds `prometheus.BuildFQName`: joins the nonempty parts with
underscores; an empty metric name yields the empty string. -/
def buildFQName (ns sub name : String) : String :=
  if name = "" then ""
  else if ns ≠ "" ∧ sub ≠ "" then ns ++ "_" ++ sub ++ "_" ++ name
  else if ns ≠ "" then ns ++ "_" ++ name
  else if sub ≠ "" then sub ++ "_" ++ name
  else name

/-- Outcome of one `db.Query` together with the scan outcome of each
returned row: either the query itself failed, or it produced a list of
rows, each of which either scans to a typed row or fails to scan. -/
def QueryResult (ρ : Type) : Type := Except Unit (List (Except Unit ρ))

/-- Embeds the common `for rows.Next() { rows.Scan(...); ch <- ... }`
loop: emits each successfully scanned row's metrics in order; a scan
failure returns the error, keeping the metrics already emitted. -/
def scanRows {ρ : Type} (emit : ρ → List Metric) :
    List (Except Unit ρ) → List Metric × Bool
  | [] => ([], false)
  | .error _ :: _ => ([], true)
  | .ok r :: rest =>
    let rec' := scanRows emit rest
    (emit r ++ rec'.1, rec'.2)

/-- Embeds a whole sub-collector body of the common shape: a failed
query returns the error at once; otherwise the row loop runs. -/
def runQuery {ρ : Type} (emit : ρ → List Metric) :
    QueryResult ρ → List Metric × Bool
  | .error _ => ([], true)
  | .ok rows => scanRows emit rows

/-- Row scanned by `ScrapeActivity` from v$sysstat. -/
structure ActivityRow where
  name : String
  value : Rat
deriving DecidableEq

/-- Embeds `ScrapeActivity`. -/
def ScrapeActivity (q : QueryResult ActivityRow) : List Metric × Bool :=
  runQuery (fun r =>
    [{ desc := { fqName := buildFQName dbNamespace "activity" (cleanName r.name),
                 help := "Generic counter metric from v$sysstat view in Oracle.",
                 variableLabels := [] },
       valueType := .counterValue, value := r.value, labelValues := [] }]) q

/-- Row scanned by `ScrapeTablespace`. -/
structure TablespaceRow where
  tablespace_name : String
  status : String
  contents : String
  extent_management : String
  bytes : Rat
  max_bytes : Rat
  bytes_free : Rat
deriving DecidableEq

/-- Descriptor `tablespaceBytesDesc` of `ScrapeTablespace`. -/
def tablespaceBytesDesc : Desc :=
  { fqName := buildFQName dbNamespace "tablespace" "bytes",
    help := "Generic counter metric of tablespaces bytes in Oracle.",
    variableLabels := ["tablespace", "type"] }

/-- Descriptor `tablespaceMaxBytesDesc` of `ScrapeTablespace`. -/
def tablespaceMaxBytesDesc : Desc :=
  { fqName := buildFQName dbNamespace "tablespace" "max_bytes",
    help := "Generic counter metric of tablespaces max bytes in Oracle.",
    variableLabels := ["tablespace", "type"] }

/-- Descriptor `tablespaceFreeBytesDesc` of `ScrapeTablespace`. -/
def tablespaceFreeBytesDesc : Desc :=
  { fqName := buildFQName dbNamespace "tablespace" "free",
    help := "Generic counter metric of tablespaces free bytes in Oracle.",
    variableLabels := ["tablespace", "type"] }

/-- Embeds `ScrapeTablespace`. -/
def ScrapeTablespace (q : QueryResult TablespaceRow) : List Metric × Bool :=
  runQuery (fun r =>
    [{ desc := tablespaceBytesDesc, valueType := .gaugeValue,
       value := r.bytes, labelValues := [r.tablespace_name, r.contents] },
     { desc := tablespaceMaxBytesDesc, valueType := .gaugeValue,
       value := r.max_bytes, labelValues := [r.tablespace_name, r.contents] },
     { desc := tablespaceFreeBytesDesc, valueType := .gaugeValue,
       value := r.bytes_free, labelValues := [r.tablespace_name, r.contents] }]) q

/-- Row scanned by `ScrapeWaitTime` from v$waitclassmetric. -/
structure WaitTimeRow where
  name : String
  value : Rat
deriving DecidableEq

/-- Embeds `ScrapeWaitTime`. -/
def ScrapeWaitTime (q : QueryResult WaitTimeRow) : List Metric × Bool :=
  runQuery (fun r =>
    [{ desc := { fqName := buildFQName dbNamespace "wait_time" (cleanName r.name),
                 help := "Generic counter metric from v$waitclassmetric view in Oracle.",
                 variableLabels := [] },
       valueType := .counterValue, value := r.value, labelValues := [] }]) q

/-- Row scanned by `ScrapeSessions` from v$session. -/
structure SessionRow where
  status : String
  sessionType : String
  count : Rat
deriving DecidableEq

/-- Descriptor of the per-(status,type) activity gauge of `ScrapeSessions`. -/
def sessionsActivityDesc : Desc :=
  { fqName := buildFQName dbNamespace "sessions" "activity",
    help := "Gauge metric with count of sessions by status and type",
    variableLabels := ["status", "type"] }

/-- Descriptor of the deprecated aggregate ACTIVE gauge of `ScrapeSessions`. -/
def sessionsActiveDesc : Desc :=
  { fqName := buildFQName dbNamespace "sessions" "active",
    help := "Gauge metric with count of sessions marked ACTIVE. DEPRECATED: use sum(oracledb_sessions_activity\x7bstatus='ACTIVE\x7d) instead.",
    variableLabels := [] }

/-- Descriptor of the deprecated aggregate INACTIVE gauge of `ScrapeSessions`. -/
def sessionsInactiveDesc : Desc :=
  { fqName := buildFQName dbNamespace "sessions" "inactive",
    help := "Gauge metric with count of sessions marked INACTIVE. DEPRECATED: use sum(oracledb_sessions_activity\x7bstatus='INACTIVE'\x7d) instead.",
    variableLabels := [] }

/-- The row loop of `ScrapeSessions`, threading the `activeCount` and
`inactiveCount` accumulators; after the loop the two deprecated
aggregate gauges are emitted. -/
def scrapeSessionsLoop :
    List (Except Unit SessionRow) → Rat → Rat → List Metric × Bool
  | [], activeCount, inactiveCount =>
    ([{ desc := sessionsActiveDesc, valueType := .gaugeValue,
        value := activeCount, labelValues := [] },
      { desc := sessionsInactiveDesc, valueType := .gaugeValue,
        value := inactiveCount, labelValues := [] }], false)
  | .error _ :: _, _, _ => ([], true)
  | .ok r :: rest, activeCount, inactiveCount =>
    let activeCount' := if r.status = "ACTIVE" then activeCount + r.count else activeCount
    let inactiveCount' := if r.status = "INACTIVE" then inactiveCount + r.count else inactiveCount
    let rec' := scrapeSessionsLoop rest activeCount' inactiveCount'
    ({ desc := sessionsActivityDesc, valueType := .gaugeValue,
       value := r.count, labelValues := [r.status, r.sessionType] } :: rec'.1,
     rec'.2)

/-- Embeds `ScrapeSessions`. -/
def ScrapeSessions (q : QueryResult SessionRow) : List Metric × Bool :=
  match q with
  | .error _ => ([], true)
  | .ok rows => scrapeSessionsLoop rows 0 0

/-- Row scanned by `ScrapeBufferPool`. -/
structure BufferPoolRow where
  name : String
  physical_reads : Rat
  db_block_gets : Rat
  consistent_gets : Rat
  hit_ratio : Rat
deriving DecidableEq

/-- Descriptor `bufferDesc` of `ScrapeBufferPool`. -/
def bufferHitsDesc : Desc :=
  { fqName := buildFQName dbNamespace "buffer" "hits",
    help := "buffer hits percentage.",
    variableLabels := ["table"] }

/-- Embeds `ScrapeBufferPool`. -/
def ScrapeBufferPool (q : QueryResult BufferPoolRow) : List Metric × Bool :=
  runQuery (fun r =>
    [{ desc := bufferHitsDesc, valueType := .gaugeValue,
       value := r.hit_ratio, labelValues := [cleanName r.name] }]) q

/-- Row scanned by `ScrapeHitSGA`. -/
structure SGARow where
  hit_ratio : Rat
deriving DecidableEq

/-- Descriptor `bufferDesc` of `ScrapeHitSGA`. -/
def sgaHitsDesc : Desc :=
  { fqName := buildFQName dbNamespace "sga" "hits",
    help := "sga hits percentage.",
    variableLabels := [] }

/-- Embeds `ScrapeHitSGA`. -/
def ScrapeHitSGA (q : QueryResult SGARow) : List Metric × Bool :=
  runQuery (fun r =>
    [{ desc := sgaHitsDesc, valueType := .gaugeValue,
       value := r.hit_ratio, labelValues := [] }]) q

/-- Row scanned by `ScrapeUserNumber`. -/
structure UserNumberRow where
  number : Rat
deriving DecidableEq

/-- Descriptor `bufferDesc` of `ScrapeUserNumber`. -/
def userNumberDesc : Desc :=
  { fqName := buildFQName dbNamespace "user" "number",
    help := "user number.",
    variableLabels := [] }

/-- Embeds `ScrapeUserNumber`. -/
def ScrapeUserNumber (q : QueryResult UserNumberRow) : List Metric × Bool :=
  runQuery (fun r =>
    [{ desc := userNumberDesc, valueType := .gaugeValue,
       value := r.number, labelValues := [] }]) q

/-- Row scanned by `ScrapeResponseTime`. -/
structure ResponseTimeRow where
  name : String
  value : Rat
deriving DecidableEq

/-- Descriptor `bufferDesc` of `ScrapeResponseTime`. -/
def responseTimeDesc : Desc :=
  { fqName := buildFQName dbNamespace "response" "time",
    help := "database response time.",
    variableLabels := ["type"] }

/-- Embeds `ScrapeResponseTime`. -/
def ScrapeResponseTime (q : QueryResult ResponseTimeRow) : List Metric × Bool :=
  runQuery (fun r =>
    [{ desc := responseTimeDesc, valueType := .gaugeValue,
       value := r.value, labelValues := [cleanName r.name] }]) q

/-- Row scanned by `ScrapeAsmDisk`; the Go variable `group_name`
receives the first selected column, `group_number`. -/
structure AsmDiskRow where
  group_name : String
  name : String
  value : Rat
deriving DecidableEq

/-- Descriptor `bufferDesc` of `ScrapeAsmDisk`. -/
def asmDiskDesc : Desc :=
  { fqName := buildFQName dbNamespace "asm" "disk_usage",
    help := "asm disk usage",
    variableLabels := ["type", "group_name"] }

/-- Embeds `ScrapeAsmDisk`: the sanitized disk-group name is passed as
the first label value and the scanned group number as the second. -/
def ScrapeAsmDisk (q : QueryResult AsmDiskRow) : List Metric × Bool :=
  runQuery (fun r =>
    [{ desc := asmDiskDesc, valueType := .gaugeValue,
       value := r.value, labelValues := [cleanName r.name, r.group_name] }]) q

/-- Row scanned by `ScrapeDateFile`. -/
structure DateFileRow where
  file : String
  filename : String
  status : String
deriving DecidableEq

/-- Descriptor `bufferDesc` of `ScrapeDateFile`. -/
def dataFileStatusDesc : Desc :=
  { fqName := buildFQName dbNamespace "data_file" "status",
    help := "data file status",
    variableLabels := ["file", "filename"] }

/-- Embeds `ScrapeDateFile`: the scanned filename is sanitized by
`cleanName` before being emitted as a label value. -/
def ScrapeDateFile (q : QueryResult DateFileRow) : List Metric × Bool :=
  runQuery (fun r =>
    [{ desc := dataFileStatusDesc, valueType := .gaugeValue,
       value := if r.status = "ONLINE" then 1 else 0,
       labelValues := [r.file, cleanName r.filename] }]) q

/-- Row scanned by `ScrapeSessionWait`. -/
structure SessionWaitRow where
  sid : String
  username : String
  value : Rat
deriving DecidableEq

/-- Descriptor `bufferDesc` of `ScrapeSessionWait`. -/
def sessionWaitDesc : Desc :=
  { fqName := buildFQName dbNamespace "session" "wait_second",
    help := "session wait second",
    variableLabels := ["sid", "username"] }

/-- Embeds `ScrapeSessionWait`. -/
def ScrapeSessionWait (q : QueryResult SessionWaitRow) : List Metric × Bool :=
  runQuery (fun r =>
    [{ desc := sessionWaitDesc, valueType := .gaugeValue,
       value := r.value, labelValues := [r.sid, r.username] }]) q

/-- Row scanned by `ScrapeForceLog`. -/
structure ForceLogRow where
  forceLogging : String
deriving DecidableEq

/-- Descriptor `bufferDesc` of `ScrapeForceLog`. -/
def forceLogDesc : Desc :=
  { fqName := buildFQName dbNamespace "force" "log",
    help := "force log",
    variableLabels := [] }

/-- Embeds `ScrapeForceLog`. -/
def ScrapeForceLog (q : QueryResult ForceLogRow) : List Metric × Bool :=
  runQuery (fun r =>
    [{ desc := forceLogDesc, valueType := .gaugeValue,
       value := if r.forceLogging = "YES" then 1 else 0,
       labelValues := [] }]) q

/-- Row scanned by `ScrapeSessionTime`. -/
structure SessionTimeRow where
  username : String
  terminal : String
  program : String
  logged_value : Rat
  current_sql : Rat
deriving DecidableEq

/-- Descriptor `loggedDesc` of `ScrapeSessionTime`. -/
def sessionsLoggedDesc : Desc :=
  { fqName := buildFQName dbNamespace "sessions" "logged_time",
    help := "logged time unit second",
    variableLabels := ["username", "terminal", "program"] }

/-- Descriptor `sqlDesc` of `ScrapeSessionTime`. -/
def sessionsSqlDesc : Desc :=
  { fqName := buildFQName dbNamespace "sessions" "sql_time",
    help := "current sql time unit second",
    variableLabels := ["username", "terminal", "program"] }

/-- Embeds `ScrapeSessionTime`. -/
def ScrapeSessionTime (q : QueryResult SessionTimeRow) : List Metric × Bool :=
  runQuery (fun r =>
    [{ desc := sessionsLoggedDesc, valueType := .gaugeValue,
       value := r.logged_value, labelValues := [r.username, r.terminal, r.program] },
     { desc := sessionsSqlDesc, valueType := .gaugeValue,
       value := r.current_sql, labelValues := [r.username, r.terminal, r.program] }]) q

/-- Row scanned by `ScrapeTransactionWaitTime`. -/
structure TransactionRow where
  sid : String
  event : String
  blocking_session : String
  et : Rat
deriving DecidableEq

/-- Descriptor `transactionDesc` of `ScrapeTransactionWaitTime`. -/
def transactionWaitDesc : Desc :=
  { fqName := buildFQName dbNamespace "transaction" "wait_time",
    help := "transaction wait time",
    variableLabels := ["sid", "event", "blocking_session"] }

/-- Embeds `ScrapeTransactionWaitTime`. -/
def ScrapeTransactionWaitTime (q : QueryResult TransactionRow) : List Metric × Bool :=
  runQuery (fun r =>
    [{ desc := transactionWaitDesc, valueType := .gaugeValue,
       value := r.et, labelValues := [r.sid, r.event, r.blocking_session] }]) q

/-- The mutable Collection State owned by the `Exporter` struct: the
duration gauge, the last-scrape-error gauge (`error` in the source),
the total-scrapes counter, the per-collector error `CounterVec`
(children kept as an association list in creation order) and the up
gauge. -/
structure ExporterState where
  duration : Rat
  error : Rat
  totalScrapes : Nat
  scrapeErrors : List (String × Nat)
  up : Rat
deriving DecidableEq

/-- Embeds `scrapeErrors.WithLabelValues(name).Inc()`: increments the
child with that collector label, creating it at 1 when absent. -/
def withLabelValuesInc : List (String × Nat) → String → List (String × Nat)
  | [], name => [(name, 1)]
  | (k, v) :: rest, name =>
    if k = name then (k, v + 1) :: rest
    else (k, v) :: withLabelValuesInc rest name

/-- Reads a `CounterVec` child's value; an untouched child reads 0. -/
def lookupCount : List (String × Nat) → String → Nat
  | [], _ => 0
  | (k, v) :: rest, name => if k = name then v else lookupCount rest name

/-- One collection pass's interaction with the database: whether
`sql.Open` and the liveness probe `SELECT 1 FROM DUAL` succeed, the
wall-clock duration observed by the deferred timer, and each
sub-collector's query outcome. -/
structure ScrapeInput where
  openOk : Bool
  pingOk : Bool
  elapsed : Rat
  activity : QueryResult ActivityRow
  tablespace : QueryResult TablespaceRow
  waitTime : QueryResult WaitTimeRow
  sessions : QueryResult SessionRow
  bufferPool : QueryResult BufferPoolRow
  hitSGA : QueryResult SGARow
  userNumber : QueryResult UserNumberRow
  responseTime : QueryResult ResponseTimeRow
  asmDisk : QueryResult AsmDiskRow
  dateFile : QueryResult DateFileRow
  sessionWait : QueryResult SessionWaitRow
  forceLog : QueryResult ForceLogRow
  sessionTime : QueryResult SessionTimeRow
  transaction : QueryResult TransactionRow

/-- The fixed roster of `scrape`: each sub-collector's error-counter
label paired with its result, in source order. -/
def subCollectors (inp : ScrapeInput) : List (String × (List Metric × Bool)) :=
  [("activity", ScrapeActivity inp.activity),
   ("tablespace", ScrapeTablespace inp.tablespace),
   ("wait_time", ScrapeWaitTime inp.waitTime),
   ("sessions", ScrapeSessions inp.sessions),
   ("buffer", ScrapeBufferPool inp.bufferPool),
   ("sga", ScrapeHitSGA inp.hitSGA),
   ("user_number", ScrapeUserNumber inp.userNumber),
   ("response_time", ScrapeResponseTime inp.responseTime),
   ("asm_disk", ScrapeAsmDisk inp.asmDisk),
   ("date_file", ScrapeDateFile inp.dateFile),
   ("session_wait", ScrapeSessionWait inp.sessionWait),
   ("force_log", ScrapeForceLog inp.forceLog),
   ("session_user", ScrapeSessionTime inp.sessionTime),
   ("transaction", ScrapeTransactionWaitTime inp.transaction)]

/-- Runs the roster tail: on each failure the collector's own error
counter is incremented and the pass continues; the Go `err` variable is
reassigned by every `if err = ScrapeX(...)`, so the returned flag is
the error of the last sub-collector run (`err` carried in). -/
def runSubs (errs : List (String × Nat)) (err : Bool) :
    List (String × (List Metric × Bool)) →
    List (String × Nat) × List Metric × Bool
  | [] => (errs, [], err)
  | c :: rest =>
    let errs' := if c.2.2 then withLabelValuesInc errs c.1 else errs
    let r := runSubs errs' c.2.2 rest
    (r.1, c.2.1 ++ r.2.1, r.2.2)

/-- Embeds `Exporter.scrape`: increments `totalScrapes`; on open
failure returns at once (the deferred function sets `duration` and sets
`error` from the final value of `err`); on probe failure sets `up` to 0
and returns; otherwise sets `up` to 1 and runs every sub-collector. -/
def scrape (inp : ScrapeInput) (s : ExporterState) : ExporterState × List Metric :=
  let s1 := { s with totalScrapes := s.totalScrapes + 1 }
  if inp.openOk = false then
    ({ s1 with duration := inp.elapsed, error := 1 }, [])
  else if inp.pingOk = false then
    ({ s1 with up := 0, duration := inp.elapsed, error := 1 }, [])
  else
    let s2 := { s1 with up := 1 }
    let r := runSubs s2.scrapeErrors false (subCollectors inp)
    ({ s2 with scrapeErrors := r.1, duration := inp.elapsed,
               error := if r.2.2 then 1 else 0 },
     r.2.1)

/-- Descriptor of the `duration` gauge of the `Exporter`. -/
def durationDesc : Desc :=
  { fqName := buildFQName dbNamespace exporterSubsystem "last_scrape_duration_seconds",
    help := "Duration of the last scrape of metrics from Oracle DB.",
    variableLabels := [] }

/-- Descriptor of the `totalScrapes` counter of the `Exporter`. -/
def totalScrapesDesc : Desc :=
  { fqName := buildFQName dbNamespace exporterSubsystem "scrapes_total",
    help := "Total number of times Oracle DB was scraped for metrics.",
    variableLabels := [] }

/-- Descriptor of the `error` gauge of the `Exporter`. -/
def lastScrapeErrorDesc : Desc :=
  { fqName := buildFQName dbNamespace exporterSubsystem "last_scrape_error",
    help := "Whether the last scrape of metrics from Oracle DB resulted in an error (1 for error, 0 for success).",
    variableLabels := [] }

/-- Descriptor of the `scrapeErrors` counter vector of the `Exporter`. -/
def scrapeErrorsDesc : Desc :=
  { fqName := buildFQName dbNamespace exporterSubsystem "scrape_errors_total",
    help := "Total number of times an error occured scraping a Oracle database.",
    variableLabels := ["collector"] }

/-- Descriptor of the `up` gauge of the `Exporter`. -/
def upDesc : Desc :=
  { fqName := buildFQName dbNamespace "" "up",
    help := "Whether the Oracle database server is up.",
    variableLabels := [] }

/-- Embeds `scrapeErrors.Collect(ch)`: one sample per touched child. -/
def collectScrapeErrors (errs : List (String × Nat)) : List Metric :=
  errs.map fun c =>
    { desc := scrapeErrorsDesc, valueType := .counterValue,
      value := (c.2 : Rat), labelValues := [c.1] }

/-- Embeds `Exporter.Collect`: one `scrape` pass, then the Collection
State's own metrics are sent on the same channel. -/
def Collect (inp : ScrapeInput) (s : ExporterState) : ExporterState × List Metric :=
  let r := scrape inp s
  (r.1,
   r.2 ++
   [{ desc := durationDesc, valueType := .gaugeValue,
      value := r.1.duration, labelValues := [] },
    { desc := totalScrapesDesc, valueType := .counterValue,
      value := (r.1.totalScrapes : Rat), labelValues := [] },
    { desc := lastScrapeErrorDesc, valueType := .gaugeValue,
      value := r.1.error, labelValues := [] }] ++
   collectScrapeErrors r.1.scrapeErrors ++
   [{ desc := upDesc, valueType := .gaugeValue,
      value := r.1.up, labelValues := [] }])

/-- The consumer goroutine of `Exporter.Describe`: drains the internal
metric channel, forwarding each metric's descriptor; it terminates when
the channel is exhausted (the channel is closed after `Collect`). -/
def relayDescs : List Metric → List Desc
  | [] => []
  | m :: rest => m.desc :: relayDescs rest

/-- Embeds `Exporter.Describe`: one `Collect` pass feeds the internal
channel, which the relay drains completely before the call returns. -/
def Describe (inp : ScrapeInput) (s : ExporterState) : ExporterState × List Desc :=
  let r := Collect inp s
  (r.1, relayDescs r.2)

theorem lookupCount_inc (errs : List (String × Nat)) (name k : String) :
    lookupCount (withLabelValuesInc errs name) k =
      lookupCount errs k + (if k = name then 1 else 0) := by
  induction errs with
  | nil =>
    simp only [withLabelValuesInc, lookupCount]
    by_cases h : k = name
    · rw [if_pos h, if_pos h.symm]
    · rw [if_neg h, if_neg (fun he => h he.symm)]
  | cons c rest ih =>
    obtain ⟨a, v⟩ := c
    simp only [withLabelValuesInc]
    by_cases h1 : a = name
    · rw [if_pos h1]
      simp only [lookupCount]
      by_cases h2 : a = k
      · rw [if_pos h2, if_pos h2, if_pos (h2.symm.trans h1)]
      · rw [if_neg h2, if_neg h2, if_neg (fun he => h2 (h1.trans he.symm))]
        omega
    · rw [if_neg h1]
      simp only [lookupCount]
      by_cases h2 : a = k
      · rw [if_pos h2, if_pos h2, if_neg (fun he => h1 (h2.trans he))]
        omega
      · rw [if_neg h2, if_neg h2, ih]

theorem runSubs_metrics (l : List (String × (List Metric × Bool))) :
    ∀ (errs : List (String × Nat)) (e : Bool),
      (runSubs errs e l).2.1 = (l.map (fun c => c.2.1)).flatten := by
  induction l with
  | nil => intro errs e; rfl
  | cons c rest ih =>
    intro errs e
    simp only [runSubs, List.map_cons, List.flatten_cons]
    rw [ih]

theorem runSubs_lookup (l : List (String × (List Metric × Bool))) :
    ∀ (errs : List (String × Nat)) (e : Bool) (name : String),
      lookupCount (runSubs errs e l).1 name =
        lookupCount errs name +
          (l.filter (fun c => c.1 == name && c.2.2)).length := by
  induction l with
  | nil => intro errs e name; simp [runSubs]
  | cons c rest ih =>
    intro errs e name
    by_cases hc : c.2.2 = true
    · by_cases hn : c.1 = name
      · have hft : (c.1 == name && c.2.2) = true := by simp [hc, hn]
        simp [runSubs, List.filter_cons, hft, ih, lookupCount_inc, hc, hn]
        omega
      · have hn' : ¬(name = c.1) := fun h => hn h.symm
        have hff : (c.1 == name && c.2.2) = false := by simp [hn]
        simp [runSubs, List.filter_cons, hff, ih, lookupCount_inc, hc, hn, hn']
    · have hc' : c.2.2 = false := by
        cases h : c.2.2
        · rfl
        · exact absurd h hc
      have hff : (c.1 == name && c.2.2) = false := by simp [hc']
      simp [runSubs, List.filter_cons, hff, ih, hc']

theorem runSubs_final_err (inp : ScrapeInput) (errs : List (String × Nat)) (e : Bool) :
    (runSubs errs e (subCollectors inp)).2.2 =
      (ScrapeTransactionWaitTime inp.transaction).2 := by
  simp [subCollectors, runSubs]

theorem relayDescs_eq_map (l : List Metric) :
    relayDescs l = l.map Metric.desc := by
  induction l with
  | nil => rfl
  | cons m rest ih => simp only [relayDescs, List.map_cons, ih]

/-- A pass in which the connection opens, the probe succeeds and every
sub-collector's query returns no rows. -/
def allOkInput : ScrapeInput where
  openOk := true
  pingOk := true
  elapsed := 0
  activity := .ok []
  tablespace := .ok []
  waitTime := .ok []
  sessions := .ok []
  bufferPool := .ok []
  hitSGA := .ok []
  userNumber := .ok []
  responseTime := .ok []
  asmDisk := .ok []
  dateFile := .ok []
  sessionWait := .ok []
  forceLog := .ok []
  sessionTime := .ok []
  transaction := .ok []

/-- The Collection State as freshly registered. -/
def initState : ExporterState where
  duration := 0
  error := 0
  totalScrapes := 0
  scrapeErrors := []
  up := 0

/-- A state whose up gauge reads 1 (as after a healthy pass). -/
def upState : ExporterState where
  duration := 0
  error := 0
  totalScrapes := 0
  scrapeErrors := []
  up := 1

/-- A pass whose connection open fails. -/
def openFailInput : ScrapeInput := { allOkInput with openOk := false }

/-- A pass whose liveness probe fails. -/
def pingFailInput : ScrapeInput := { allOkInput with pingOk := false }

/-- A healthy pass in which only the final sub-collector,
`ScrapeTransactionWaitTime`, fails. -/
def transactionFailInput : ScrapeInput := { allOkInput with transaction := .error () }

/-- A healthy pass in which only `ScrapeSessions` fails. -/
def sessionsFailInput : ScrapeInput := { allOkInput with sessions := .error () }

/-- C1 counterexample: a pass in which the connection opens and the
liveness probe succeeds but the final sub-collector
(`ScrapeTransactionWaitTime`) fails leaves the last_error gauge at 1,
not 0: the shared `err` variable still holds the final sub-collector's
error when the deferred function runs. -/
theorem scrape_lastError_final_collector_cex :
    transactionFailInput.openOk = true ∧
    transactionFailInput.pingOk = true ∧
    (ScrapeTransactionWaitTime transactionFailInput.transaction).2 = true ∧
    (scrape transactionFailInput initState).1.error = 1 := by
  refine ⟨rfl, rfl, rfl, ?_⟩
  decide

/-- C1 (amended): after a pass, the last_error gauge is 1 if and only
if the connection open failed, the liveness probe failed, or the final
sub-collector (`ScrapeTransactionWaitTime`) failed; failures of the
other thirteen sub-collectors alone leave last_error at 0. -/
theorem scrape_lastError_iff (inp : ScrapeInput) (s : ExporterState) :
    (scrape inp s).1.error = 1 ↔
      (inp.openOk = false ∨ inp.pingOk = false ∨
        (ScrapeTransactionWaitTime inp.transaction).2 = true) := by
  by_cases ho : inp.openOk = false
  · simp [scrape, ho]
  · have ho' : inp.openOk = true := by
      cases h : inp.openOk
      · exact absurd h ho
      · rfl
    by_cases hp : inp.pingOk = false
    · simp [scrape, ho', hp]
    · have hp' : inp.pingOk = true := by
        cases h : inp.pingOk
        · exact absurd h hp
        · rfl
      simp only [scrape, ho', hp', Bool.true_eq_false, if_false, if_neg]
      rw [runSubs_final_err]
      cases h : (ScrapeTransactionWaitTime inp.transaction).2 <;>
        simp [ho', hp', h]

/-- C2 counterexample: a pass whose connection open fails leaves the
up gauge untouched rather than setting it to 0: starting from a state
in which up reads 1, it still reads 1 after the pass. -/
theorem scrape_openFail_up_unchanged_cex :
    openFailInput.openOk = false ∧
    upState.up = 1 ∧
    (scrape openFailInput upState).1.up = 1 := by
  refine ⟨rfl, rfl, ?_⟩
  decide

/-- C2 (amended): a pass whose connection open fails has exactly this
effect on the Collection State: total_scrapes increases by 1,
last_error is set to 1 and the duration gauge is updated; the up gauge
and every per-collector error counter are unchanged, no metric sample
is emitted, and no sub-collector is invoked. -/
theorem scrape_openFail (inp : ScrapeInput) (s : ExporterState)
    (h : inp.openOk = false) :
    scrape inp s =
      ({ s with totalScrapes := s.totalScrapes + 1,
                duration := inp.elapsed, error := 1 }, []) := by
  simp [scrape, h]

/-- Witness for C2's amended theorem at a concrete failed-open pass. -/
theorem scrape_openFail_witness :
    scrape openFailInput initState =
      ({ initState with totalScrapes := initState.totalScrapes + 1,
                        duration := openFailInput.elapsed, error := 1 }, []) :=
  scrape_openFail openFailInput initState rfl

/-- C3: in a pass whose connection opened, if the liveness probe fails
then up is set to 0 and no domain metric sample is emitted (no
sub-collector runs); if the probe succeeds then up is set to 1 (and,
the sub-collectors never touching the gauge, it still reads 1 after
the pass). -/
theorem scrape_ping_up (inp : ScrapeInput) (s : ExporterState)
    (hopen : inp.openOk = true) :
    (inp.pingOk = false →
      (scrape inp s).1.up = 0 ∧ (scrape inp s).2 = []) ∧
    (inp.pingOk = true → (scrape inp s).1.up = 1) := by
  constructor
  · intro hp
    simp [scrape, hopen, hp]
  · intro hp
    simp [scrape, hopen, hp]

/-- Witness for C3 at a concrete failed-probe pass and a concrete
healthy pass. -/
theorem scrape_ping_up_witness :
    ((scrape pingFailInput initState).1.up = 0 ∧
      (scrape pingFailInput initState).2 = []) ∧
    (scrape allOkInput initState).1.up = 1 :=
  ⟨(scrape_ping_up pingFailInput initState rfl).1 rfl,
   (scrape_ping_up allOkInput initState rfl).2 rfl⟩

/-- C4: in a pass whose connection opened and whose probe succeeded,
the emitted samples are the concatenation, in roster order, of every
sub-collector's emissions (one failure never stops the remaining
collectors from running), and each collector-name error counter grows
by exactly the number of roster entries with that name that failed —
so a failing sub-collector's own counter grows by 1 and every other
counter is unchanged. -/
theorem scrape_error_counters (inp : ScrapeInput) (s : ExporterState)
    (hopen : inp.openOk = true) (hping : inp.pingOk = true) :
    (scrape inp s).2 = ((subCollectors inp).map (fun c => c.2.1)).flatten ∧
    ∀ name : String,
      lookupCount (scrape inp s).1.scrapeErrors name =
        lookupCount s.scrapeErrors name +
          ((subCollectors inp).filter (fun c => c.1 == name && c.2.2)).length := by
  constructor
  · simp [scrape, hopen, hping, runSubs_metrics]
  · intro name
    simp [scrape, hopen, hping, runSubs_lookup]

/-- Witness for C4: in a concrete pass in which only `ScrapeSessions`
fails, the "sessions" error counter reads 1 afterwards while the
"activity" counter still reads 0. -/
theorem scrape_error_counters_witness :
    lookupCount (scrape sessionsFailInput initState).1.scrapeErrors "sessions" = 1 ∧
    lookupCount (scrape sessionsFailInput initState).1.scrapeErrors "activity" = 0 := by
  have h := (scrape_error_counters sessionsFailInput initState rfl rfl).2
  constructor
  · rw [h "sessions"]
    decide
  · rw [h "activity"]
    decide

/-- C5: every pass increments the total_scrapes counter by exactly 1,
whatever the outcome of the connection open, the probe, or any
sub-collector. -/
theorem scrape_totalScrapes (inp : ScrapeInput) (s : ExporterState) :
    (scrape inp s).1.totalScrapes = s.totalScrapes + 1 := by
  by_cases ho : inp.openOk = false
  · simp [scrape, ho]
  · by_cases hp : inp.pingOk = false
    · simp [scrape, ho, hp]
    · simp [scrape, ho, hp]

/-- C8: `Describe` performs exactly one collection pass — its effect on
the Collection State is precisely `Collect`'s — and forwards exactly
one descriptor per metric emitted by that pass: the relay loop drains
the whole handoff before `Describe` returns, so no descriptor is
missed and none is duplicated. -/
theorem Describe_one_pass (inp : ScrapeInput) (s : ExporterState) :
    Describe inp s = ((Collect inp s).1, (Collect inp s).2.map Metric.desc) := by
  simp [Describe, relayDescs_eq_map]

/-- C9: on the rows (ACTIVE, USER, 3) and (INACTIVE, USER, 2),
`ScrapeSessions` emits the per-(status,type) activity gauges 3 and 2,
then the deprecated aggregates active = 3 and inactive = 2, and
returns success. -/
theorem ScrapeSessions_example :
    ScrapeSessions (.ok [.ok ⟨"ACTIVE", "USER", 3⟩, .ok ⟨"INACTIVE", "USER", 2⟩]) =
      ([{ desc := sessionsActivityDesc, valueType := .gaugeValue,
          value := 3, labelValues := ["ACTIVE", "USER"] },
        { desc := sessionsActivityDesc, valueType := .gaugeValue,
          value := 2, labelValues := ["INACTIVE", "USER"] },
        { desc := sessionsActiveDesc, valueType := .gaugeValue,
          value := 3, labelValues := [] },
        { desc := sessionsInactiveDesc, valueType := .gaugeValue,
          value := 2, labelValues := [] }], false) := by
  simp [ScrapeSessions, scrapeSessionsLoop]

/-- C7 counterexample: `ScrapeDateFile` sanitizes the scanned filename
before emitting it as the "filename" label value, so an emitted label
value can differ from the raw string scanned from the row: the raw
filename "A B" is emitted as "a_b". -/
theorem ScrapeDateFile_label_sanitized_cex :
    (ScrapeDateFile (.ok [.ok ⟨"1", "A B", "ONLINE"⟩])).1 =
      [{ desc := dataFileStatusDesc, valueType := .gaugeValue,
         value := 1, labelValues := ["1", "a_b"] }] ∧
    ("a_b" : String) ≠ "A B" := by
  constructor
  · decide
  · decide

/-- C7 (amended): the sanitizer is applied to database-supplied strings
that become part of a metric family name, but also to some emitted
label values: `ScrapeDateFile` emits the sanitized filename as its
"filename" label and `ScrapeAsmDisk` the sanitized disk-group name as
its "type" label, so label values are not in general the raw scanned
strings. -/
theorem sanitized_label_values (file filename status group_name name : String)
    (v : Rat) :
    (ScrapeDateFile (.ok [.ok ⟨file, filename, status⟩])).1 =
      [{ desc := dataFileStatusDesc, valueType := .gaugeValue,
         value := if status = "ONLINE" then 1 else 0,
         labelValues := [file, cleanName filename] }] ∧
    (ScrapeAsmDisk (.ok [.ok ⟨group_name, name, v⟩])).1 =
      [{ desc := asmDiskDesc, valueType := .gaugeValue, value := v,
         labelValues := [cleanName name, group_name] }] := by
  constructor
  · rfl
  · rfl

/-- C10: `ScrapeAsmDisk` declares the label keys ["type", "group_name"]
and, for every row, emits one gauge whose first label value (under the
key "type") is the sanitized disk-group name and whose second (under
the key "group_name") is the raw group number scanned from the first
column — the two positions carry name and number swapped relative to
what the keys suggest. -/
theorem ScrapeAsmDisk_label_swap (rows : List AsmDiskRow) :
    asmDiskDesc.variableLabels = ["type", "group_name"] ∧
    ScrapeAsmDisk (.ok (rows.map Except.ok)) =
      (rows.map (fun r =>
        { desc := asmDiskDesc, valueType := .gaugeValue, value := r.value,
          labelValues := [cleanName r.name, r.group_name] }), false) := by
  refine ⟨rfl, ?_⟩
  induction rows with
  | nil => rfl
  | cons r rest ih =>
    simp only [ScrapeAsmDisk, runQuery] at ih ⊢
    simp only [List.map_cons, scanRows, ih, List.singleton_append]

end OracleDB
